import Mathlib

/-!
Shallow embedding of the vmwarevsphere driver of classmarkets/docker-machine
(`drivers/vmwarevsphere/vsphere.go`) and of the Container Optimized OS
provisioner, together with proofs about the behaviour of `GetIP`, `GetState`,
`PreCreateCheck`, `Start`, `Restart`, `Remove` and daemon-configuration
generation.

Each driver operation performs a fixed sequence of backend calls (login,
VM lookup, property retrieval, task submission, task wait, ...).  The
embedding makes those calls explicit: every operation takes an environment
record holding the result of each backend call in program order, and the
operation's Lean definition replays the Go control flow over those results.
Machine states and Go `error` values are explicit inductive types; fallible
steps return `Option GoErr` (`none` = Go `nil` error) or `Except GoErr α`.
-/

namespace VSphere

/-- The libmachine host states (`libmachine/state`); the vsphere driver uses
`None`, `Running` and `Stopped`, the full enumeration is the spec's §3 list. -/
inductive MachineState
  | none_
  | starting
  | running
  | stopped
  | stopping
  | saved
  | paused
  | error
  | timeout
deriving DecidableEq, Repr

/-- Go `error` values produced or propagated by the driver.  `backend` stands
for an arbitrary error returned by a govmomi call; `fileNotFound` is an error
for which `types.IsFileNotFound` reports true; `cantStopVM` is the
`fmt.Errorf("can't stop VM: %s", err)` wrapper; `hostNotRunning` is
`drivers.ErrHostIsNotRunning`; `noIPFound` is the
`"No IP despite waiting for one - check DHCP status"` error. -/
inductive GoErr
  | hostNotRunning
  | noIPFound
  | folderNotFound (name : String)
  | fileNotFound (msg : String)
  | cantStopVM (e : GoErr)
  | backend (msg : String)
deriving DecidableEq, Repr

/-- Embeds `types.IsFileNotFound`. -/
def GoErr.isFileNotFound : GoErr → Bool
  | .fileNotFound _ => true
  | _ => false

/-! ### Strings: substring test (Go `strings.Contains`) -/

/-- `listContains pat l` holds iff `pat` occurs contiguously inside `l`. -/
def listContains (pat : List Char) : List Char → Bool
  | [] => pat.isEmpty
  | c :: rest => pat.isPrefixOf (c :: rest) || listContains pat rest

/-- Embeds Go `strings.Contains s pat`. -/
def containsSubstr (s pat : String) : Bool :=
  listContains pat.toList s.toList

/-! ### IP parsing: the fragment of Go `net.ParseIP` / `To4` /
`IsGlobalUnicast` / `Equal` that `GetIP`'s selection loop uses. -/

/-- Decimal parse of a nonempty all-digit string. -/
def parseDecimal? (s : String) : Option Nat :=
  if s.length = 0 then none
  else if s.all Char.isDigit then
    some (s.foldl (fun n c => n * 10 + (c.toNat - 48)) 0)
  else none

/-- One dotted-quad field: decimal, value ≤ 255, no leading zero
(Go ≥ 1.17 `ParseIP` field rules). -/
def decOctet? (s : String) : Option Nat :=
  match parseDecimal? s with
  | none => none
  | some n =>
    if n ≤ 255 && (s.length == 1 || !(s.startsWith "0")) then some n else none

/-- Dotted-quad IPv4 parse: exactly four valid fields. -/
def parseIPv4 (s : String) : Option (Nat × Nat × Nat × Nat) :=
  match (s.splitOn ".").map decOctet? with
  | [some a, some b, some c, some d] => some (a, b, c, d)
  | _ => none

/-- `net.ParseIP(s).To4()`: non-nil exactly for dotted-quad IPv4 and for the
IPv4-mapped IPv6 textual form `::ffff:a.b.c.d`; yields the four octets. -/
def parseTo4 (s : String) : Option (Nat × Nat × Nat × Nat) :=
  match parseIPv4 s with
  | some q => some q
  | none => if s.startsWith "::ffff:" then parseIPv4 (s.drop 7) else none

/-- Go `IP.IsGlobalUnicast` on a 4-byte address: everything except the
broadcast address, the unspecified address, loopback, multicast and
link-local unicast. -/
def isGlobalUnicast4 (a b c d : Nat) : Bool :=
  !(a == 255 && b == 255 && c == 255 && d == 255) &&
  !(a == 0 && b == 0 && c == 0 && d == 0) &&
  !(a == 127) &&
  !(224 ≤ a && a ≤ 239) &&
  !(a == 169 && b == 254)

/-- `dockerBridgeIP` — the default IP address of the docker0 bridge. -/
def dockerBridgeIP : String := "172.17.0.1"

/-- The body of `GetIP`'s inner filter:
`netIP.To4() != nil && netIP.IsGlobalUnicast() && !netIP.Equal(net.ParseIP(dockerBridgeIP))`.
An unparseable string (Go: nil `IP`) never qualifies. -/
def isQualifyingIP (s : String) : Bool :=
  match parseTo4 s with
  | some (a, b, c, d) =>
    isGlobalUnicast4 a b c d && !(a == 172 && b == 17 && c == 0 && d == 1)
  | none => false

/-! ### GetState -/

/-- The backend-call results consumed by one `GetState` call, in program
order: `vsphereLogin`, `fetchVM`, `RetrieveOne`.  `ok ps` means all three
succeeded and the retrieved `Summary.Runtime.PowerState` string is `ps`. -/
inductive GSOutcome
  | loginErr (e : GoErr)
  | fetchErr (e : GoErr)
  | retrieveErr (e : GoErr)
  | ok (powerState : String)
deriving DecidableEq, Repr

/-- Embeds `Driver.GetState`.  Note the source's `RetrieveOne` failure branch
returns `state.None, nil` — the retrieval error is dropped. -/
def getState (o : GSOutcome) : MachineState × Option GoErr :=
  match o with
  | .loginErr e => (.none_, some e)
  | .fetchErr e => (.none_, some e)
  | .retrieveErr _ => (.none_, none)
  | .ok ps =>
    if containsSubstr ps "poweredOn" then (.running, none)
    else if containsSubstr ps "poweredOff" then (.stopped, none)
    else (.none_, none)

/-! ### GetIP -/

/-- The always-true guard `len(ips) >= 0` of `GetIP`'s selection loop
(`len` of a Go slice is a non-negative `int`; the embedding's `List.length`
is a `Nat`). -/
def lenGuard (ips : List String) : Bool :=
  decide (ips.length ≥ 0)

/-- The inner loop of `GetIP`: scan `ips` for the first qualifying address,
keeping `first` (`ips[0]`) when none qualifies. -/
def pickPreferred (first : String) : List String → String
  | [] => first
  | ip :: rest => if isQualifyingIP ip then ip else pickPreferred first rest

/-- The outer loop of `GetIP` over the MAC → address-list map returned by
`WaitForNetIP` (the embedding fixes an iteration order as a list of entries).
Inside the `lenGuard` branch the source reads `ips[0]` and returns; the
embedding uses the `Option`-returning index `List.head?`, so an empty list
yields `none` (the Go code would panic there) and an empty map falls through
to `none` (the source's trailing error return). -/
def scanMacIPs : List (String × List String) → Option String
  | [] => none
  | (_, ips) :: rest =>
    if lenGuard ips then
      match ips.head? with
      | some first => some (pickPreferred first ips)
      | none => none
    else scanMacIPs rest

/-- Backend-call results consumed by one `GetIP` call, in program order:
the inner `GetState` call, `vsphereLogin`, `fetchVM`, `WaitForNetIP`. -/
structure GetIPEnv where
  gs : GSOutcome
  login : Option GoErr
  fetch : Option GoErr
  waitNetIP : Except GoErr (List (String × List String))

/-- Embeds `Driver.GetIP`.  The `GetState` error is ignored by the source
(only the state is tested); any non-`Running` state yields
`drivers.ErrHostIsNotRunning`. -/
def getIP (env : GetIPEnv) : Except GoErr String :=
  if (getState env.gs).1 ≠ MachineState.running then .error .hostNotRunning
  else
    match env.login with
    | some e => .error e
    | none =>
      match env.fetch with
      | some e => .error e
      | none =>
        match env.waitNetIP with
        | .error e => .error e
        | .ok entries =>
          match scanMacIPs entries with
          | some ip => .ok ip
          | none => .error .noIPFound

/-! ### Start -/

/-- Backend-call results consumed by one `Start` call: the inner `GetState`,
then (only on the `Stopped` branch) `vsphereLogin`, `fetchVM`,
`vm.PowerOn` (task submission), `task.WaitForResult`, and the inner
`GetIP` result the source assigns to `d.IPAddress`. -/
structure StartEnv where
  gs : GSOutcome
  login : Option GoErr
  fetch : Option GoErr
  powerOnStart : Option GoErr
  powerOnWait : Option GoErr
  getIPRes : Except GoErr String

/-- Observable outcome of `Start`: returned error (if any), whether a
`PowerOn` request was issued to the backend, and the value of the driver's
`IPAddress` field after the call. -/
structure StartResult where
  result : Option GoErr
  powerOnInvoked : Bool
  ipAddress : String
deriving DecidableEq, Repr

/-- Embeds `Driver.Start`.  `ip0` is `d.IPAddress` before the call.  The
source's `switch`: `Running` → log and return nil; `Stopped` → power on,
wait, then set `d.IPAddress` from `GetIP`; any other state falls through to
`return nil`. -/
def start (ip0 : String) (env : StartEnv) : StartResult :=
  match getState env.gs with
  | (_, some e) => ⟨some e, false, ip0⟩
  | (st, none) =>
    match st with
    | .running => ⟨none, false, ip0⟩
    | .stopped =>
      match env.login with
      | some e => ⟨some e, false, ip0⟩
      | none =>
        match env.fetch with
        | some e => ⟨some e, false, ip0⟩
        | none =>
          match env.powerOnStart with
          | some e => ⟨some e, true, ip0⟩
          | none =>
            match env.powerOnWait with
            | some e => ⟨some e, true, ip0⟩
            | none =>
              match env.getIPRes with
              | .error e => ⟨some e, true, ip0⟩
              | .ok ip => ⟨none, true, ip⟩
    | _ => ⟨none, false, ip0⟩

/-! ### Restart -/

/-- A lifecycle sub-operation invoked by `Restart`. -/
inductive Call
  | kill
  | start
deriving DecidableEq, Repr

/-- Backend interaction of one `Restart` call: the result of the initial
`Stop`, the stream of `GetState` results (`polls k` is the k-th `GetState`
call made by `Restart`, counting the in-loop polls and the post-loop check),
and the results of `Kill` and `Start` should they be invoked. -/
structure RestartEnv where
  stop : Option GoErr
  polls : Nat → MachineState × Option GoErr
  kill : Option GoErr
  start : Option GoErr

/-- Observable outcome of `Restart`: returned error (if any), the sequence of
`Kill`/`Start` invocations, and how many `GetState` calls were made. -/
structure RestartResult where
  result : Option GoErr
  calls : List Call
  pollsUsed : Nat
deriving DecidableEq, Repr

/-- The `for i := 1; i <= 60` wait-for-stopped loop of `Restart`: each
iteration polls `GetState`; a non-nil error returns it immediately
(`.error (e, pollsUsed)`); `Stopped` breaks; `Running` sleeps and continues;
any other state also continues.  `.ok k` means the loop exited (break or
budget exhausted) having made `k` polls in total (`k` is also the index of
the next poll). -/
def waitLoop (polls : Nat → MachineState × Option GoErr) :
    Nat → Nat → Except (GoErr × Nat) Nat
  | k, 0 => .ok k
  | k, fuel + 1 =>
    match polls k with
    | (_, some e) => .error (e, k + 1)
    | (st, none) =>
      if st = MachineState.stopped then .ok (k + 1)
      else waitLoop polls (k + 1) fuel

/-- Embeds `Driver.Restart`: `Stop`, then the 60-iteration wait loop, then a
final `GetState` (whose error the source ignores); if that final state is
`Running`, `Kill` (wrapping its failure in `cantStopVM`); finally `Start`,
whose result is returned. -/
def restart (env : RestartEnv) : RestartResult :=
  match env.stop with
  | some e => ⟨some e, [], 0⟩
  | none =>
    match waitLoop env.polls 0 60 with
    | .error (e, used) => ⟨some e, [], used⟩
    | .ok used =>
      match env.polls used with
      | (st, _) =>
        if st = MachineState.running then
          match env.kill with
          | some e => ⟨some (.cantStopVM e), [.kill], used + 1⟩
          | none => ⟨env.start, [.kill, .start], used + 1⟩
        else ⟨env.start, [.start], used + 1⟩

/-! ### Remove -/

/-- Backend-call results consumed by one `Remove` call, in program order:
the initial `GetState`; `Kill` (only if running); `vsphereLogin`;
`DatacenterOrDefault`; `DatastoreOrDefault`; `DeleteDatastoreFile` task
submission; the delete task's `Wait`; `fetchVM`; `vm.Destroy` task
submission; the destroy task's `WaitForResult`. -/
structure RemoveEnv where
  gs : GSOutcome
  kill : Option GoErr
  login : Option GoErr
  findDC : Option GoErr
  findDS : Option GoErr
  deleteISOStart : Option GoErr
  deleteISOWait : Option GoErr
  fetch : Option GoErr
  destroyStart : Option GoErr
  destroyWait : Option GoErr

/-- Observable outcome of `Remove`: returned error (if any), whether `Kill`
was invoked, and whether the `vm.Destroy` call was reached. -/
structure RemoveResult where
  result : Option GoErr
  killInvoked : Bool
  destroyInvoked : Bool
deriving DecidableEq, Repr

/-- The tail of `Remove` after the ISO-deletion step: `fetchVM`,
`vm.Destroy`, `task.WaitForResult`. -/
def removeDestroyPhase (killInv : Bool) (env : RemoveEnv) : RemoveResult :=
  match env.fetch with
  | some e => ⟨some e, killInv, false⟩
  | none =>
    match env.destroyStart with
    | some e => ⟨some e, killInv, true⟩
    | none =>
      match env.destroyWait with
      | some e => ⟨some e, killInv, true⟩
      | none => ⟨none, killInv, true⟩

/-- The middle of `Remove`, after the optional force-stop: login, finder
lookups, ISO deletion, then the destroy phase.  Mirrors the source's
handling of the delete task's `Wait` error: a `FileNotFound` fault returns
nil immediately (skipping the destroy phase); any other non-nil `Wait` error
is not returned — control falls through to the destroy phase. -/
def removeBackendPhase (killInv : Bool) (env : RemoveEnv) : RemoveResult :=
  match env.login with
  | some e => ⟨some e, killInv, false⟩
  | none =>
    match env.findDC with
    | some e => ⟨some e, killInv, false⟩
    | none =>
      match env.findDS with
      | some e => ⟨some e, killInv, false⟩
      | none =>
        match env.deleteISOStart with
        | some e => ⟨some e, killInv, false⟩
        | none =>
          match env.deleteISOWait with
          | some e =>
            if e.isFileNotFound then ⟨none, killInv, false⟩
            else removeDestroyPhase killInv env
          | none => removeDestroyPhase killInv env

/-- Embeds `Driver.Remove`: `GetState` (error returned), force-stop via
`Kill` if `Running` (failure wrapped in `cantStopVM`), then the backend
phase. -/
def remove (env : RemoveEnv) : RemoveResult :=
  match getState env.gs with
  | (_, some e) => ⟨some e, false, false⟩
  | (st, none) =>
    if st = MachineState.running then
      match env.kill with
      | some e => ⟨some (.cantStopVM e), true, false⟩
      | none => removeBackendPhase true env
    else removeBackendPhase false env

/-! ### PreCreateCheck -/

/-- The driver's stored configuration fields read or written by
`PreCreateCheck` (a sub-record of the Go `Driver` struct). -/
structure DriverCfg where
  folder : String
  datastore : String
  datacenter : String
  networks : List String
  network : String
  hostSystem : String
  pool : String
deriving DecidableEq, Repr

/-- Backend-call results consumed by one `PreCreateCheck` call, in program
order: `vsphereLogin`; `DatacenterOrDefault`; `dc.Folders`; `f.Folder`
(`.ok b` with `b` = "returned folder is non-nil"); `DatastoreOrDefault`;
`NetworkOrDefault` per network name; `HostSystemOrDefault`;
`f.ResourcePool`; `hs.ResourcePool`; `f.DefaultResourcePool`. -/
structure PreCreateEnv where
  login : Option GoErr
  findDC : Option GoErr
  folders : Option GoErr
  findFolder : Except GoErr Bool
  findDS : Option GoErr
  findNetwork : String → Option GoErr
  findHS : Option GoErr
  findPool : Option GoErr
  hsPool : Option GoErr
  defaultPool : Option GoErr

/-- The `for _, netName := range d.Networks` validation loop of
`PreCreateCheck`: first failing `NetworkOrDefault` lookup aborts. -/
def validateNetworks (find : String → Option GoErr) : List String → Option GoErr
  | [] => none
  | n :: rest =>
    match find n with
    | some e => some e
    | none => validateNetworks find rest

/-- The resource-pool selection at the end of `PreCreateCheck`: an explicit
pool name is looked up; otherwise, with a host system configured (`hs` is
non-nil there), the host system's pool; otherwise the datacenter default. -/
def poolPhase (cfg : DriverCfg) (env : PreCreateEnv) : DriverCfg × Option GoErr :=
  if cfg.pool ≠ "" then
    match env.findPool with
    | some e => (cfg, some e)
    | none => (cfg, none)
  else if cfg.hostSystem ≠ "" then
    match env.hsPool with
    | some e => (cfg, some e)
    | none => (cfg, none)
  else
    match env.defaultPool with
    | some e => (cfg, some e)
    | none => (cfg, none)

/-- The network defaulting of `PreCreateCheck`: when `d.Networks` is empty
the source appends `"VM Network"` to it before validating the networks. -/
def defaultedNetworks (cfg : DriverCfg) : List String :=
  if cfg.networks.isEmpty then cfg.networks ++ ["VM Network"] else cfg.networks

/-- Host-system and resource-pool validation of `PreCreateCheck` (run after
the network phase, on the already-mutated configuration). -/
def hostPoolPhase (cfg : DriverCfg) (env : PreCreateEnv) : DriverCfg × Option GoErr :=
  if cfg.hostSystem ≠ "" then
    match env.findHS with
    | some e => (cfg, some e)
    | none => poolPhase cfg env
  else poolPhase cfg env

/-- `PreCreateCheck` from the network-defaulting step onward: `d.Networks`
is defaulted *before* the validation loop, and after a fully successful
network loop the source assigns `d.Network = d.Networks[0]`; host-system and
pool validation then run on the mutated configuration. -/
def networkPhase (cfg : DriverCfg) (env : PreCreateEnv) : DriverCfg × Option GoErr :=
  match validateNetworks env.findNetwork (defaultedNetworks cfg) with
  | some e => ({ cfg with networks := defaultedNetworks cfg }, some e)
  | none =>
    hostPoolPhase
      { cfg with
          networks := defaultedNetworks cfg
          network := (defaultedNetworks cfg).headD "" } env

/-- Embeds `Driver.PreCreateCheck`: login, datacenter lookup, optional
folder validation (a failed search returns its error; a nil folder yields
`failed to find VM Folder`), datastore lookup, then the network phase.
Returns the driver configuration after the call together with the result. -/
def preCreateCheck (cfg : DriverCfg) (env : PreCreateEnv) : DriverCfg × Option GoErr :=
  match env.login with
  | some e => (cfg, some e)
  | none =>
    match env.findDC with
    | some e => (cfg, some e)
    | none =>
      match (if cfg.folder ≠ "" then
              match env.folders with
              | some e => some e
              | none =>
                match env.findFolder with
                | .error e => some e
                | .ok false => some (GoErr.folderNotFound cfg.folder)
                | .ok true => none
             else none) with
      | some e => (cfg, some e)
      | none =>
        match env.findDS with
        | some e => (cfg, some e)
        | none => networkPhase cfg env

end VSphere

namespace Provision

/-! ### Daemon-configuration generation (Container Optimized OS provisioner)

The COS provisioner source is under src/ (it embeds `SystemdProvisioner` and
overrides `GenerateDockerOptions` to call
`SystemdProvisioner.GenericProvisioner.GenerateDockerOptions`, with the
comment "use /etc/default/docker, not a systemd override").  The bodies of
`SystemdProvisioner.GenerateDockerOptions` and
`GenericProvisioner.GenerateDockerOptions` are not under src/ and are
modelled from the spec. -/

/-- One on-host artifact written by daemon-configuration generation. -/
inductive ConfigArtifact
  | overrideFragment
  | flagFile
  | flatEnvFile
deriving DecidableEq, Repr

/-- Modelled from the spec: `SystemdProvisioner.GenerateDockerOptions` is not
under src/; per the spec, a systemd-capable target "produces an override
fragment + flag file (two artifacts)". -/
def systemdGenerateDockerOptions : List ConfigArtifact :=
  [.overrideFragment, .flagFile]

/-- Modelled from the spec: `GenericProvisioner.GenerateDockerOptions` is not
under src/; per the spec, a non-systemd target "produces exactly one flat
file" (a flat environment-style file). -/
def genericGenerateDockerOptions : List ConfigArtifact :=
  [.flatEnvFile]

/-- The shape-relevant part of a provisioner: its OS release id, whether its
detected init system is systemd (for COS: it embeds `SystemdProvisioner`),
and the artifact shape its `GenerateDockerOptions` emits. -/
structure ProvisionerModel where
  osReleaseID : String
  systemdBased : Bool
  generateDockerOptions : List ConfigArtifact
deriving DecidableEq, Repr

/-- The generic systemd-based provisioner (systemd detected, no override);
its generation emits the systemd two-artifact shape.  The `systemdBased`
flag and shape follow the spec (the type's body is not under src/). -/
def systemdProvisioner : ProvisionerModel :=
  { osReleaseID := "systemd-generic"
    systemdBased := true
    generateDockerOptions := systemdGenerateDockerOptions }

/-- A non-systemd provisioner: its generation emits the single flat
environment-style file. -/
def nonSystemdProvisioner : ProvisionerModel :=
  { osReleaseID := "generic"
    systemdBased := false
    generateDockerOptions := genericGenerateDockerOptions }

/-- From src/: `COSProvisioner` embeds `SystemdProvisioner` (hence
systemd-based, OS release id "cos") but overrides `GenerateDockerOptions`
to delegate to `GenericProvisioner.GenerateDockerOptions` — "use
/etc/default/docker, not a systemd override". -/
def cosProvisioner : ProvisionerModel :=
  { osReleaseID := "cos"
    systemdBased := true
    generateDockerOptions := genericGenerateDockerOptions }

end Provision

open VSphere Provision

/-! ### Concrete inputs used by witnesses and counterexamples -/

/-- A host whose backend reports `poweredOff`: `GetState` yields `Stopped`. -/
def ipEnvStopped : GetIPEnv :=
  { gs := .ok "poweredOff", login := none, fetch := none, waitNetIP := .ok [] }

/-- A running host reporting one MAC with a link-local IPv6 address followed
by a private global-unicast IPv4 address. -/
def ipEnvRunning : GetIPEnv :=
  { gs := .ok "poweredOn", login := none, fetch := none
    waitNetIP := .ok [("00:0c:29:aa:bb:cc", ["fe80::1", "10.0.0.7"])] }

/-- A running host whose first reported MAC entry has an empty address
list. -/
def ipEnvEmptyList : GetIPEnv :=
  { gs := .ok "poweredOn", login := none, fetch := none
    waitNetIP := .ok [("00:0c:29:aa:bb:cc", ([] : List String))] }

/-- A running host for `Start`: all backend calls would succeed, but the
`Running` branch must touch none of them. -/
def startEnvRunning : StartEnv :=
  { gs := .ok "poweredOn", login := none, fetch := none, powerOnStart := none
    powerOnWait := none, getIPRes := .ok "192.168.1.5" }

/-- A `Restart` interaction in which every `GetState` poll reports
`Running` and `Stop`, `Kill`, `Start` all succeed. -/
def restartEnvAlwaysRunning : RestartEnv :=
  { stop := none, polls := fun _ => (.running, none), kill := none, start := none }

/-- A `Restart` interaction in which every `GetState` poll reports the
`Error` state with a nil error. -/
def restartEnvErrorState : RestartEnv :=
  { stop := none, polls := fun _ => (.error, none), kill := none, start := none }

/-- A `Restart` interaction whose very first poll fails with a backend
error. -/
def restartEnvPollFails : RestartEnv :=
  { stop := none, polls := fun _ => (.none_, some (.backend "connection refused"))
    kill := none, start := none }

/-- A `Restart` interaction in which the machine reports `Stopped` from the
first poll on. -/
def restartEnvStopsFirstPoll : RestartEnv :=
  { stop := none, polls := fun _ => (.stopped, none), kill := none, start := none }

/-- A `Remove` interaction on a stopped machine where the boot-ISO delete
task reports a file-not-found fault and every other backend call would
succeed. -/
def removeEnvISOGone : RemoveEnv :=
  { gs := .ok "poweredOff", kill := none, login := none, findDC := none
    findDS := none, deleteISOStart := none
    deleteISOWait := some (.fileNotFound "boot2docker.iso was not found")
    fetch := none, destroyStart := none, destroyWait := none }

/-- A `Remove` interaction on a running machine in which every backend call
succeeds. -/
def removeEnvRunningOk : RemoveEnv :=
  { gs := .ok "poweredOn", kill := none, login := none, findDC := none
    findDS := none, deleteISOStart := none, deleteISOWait := none
    fetch := none, destroyStart := none, destroyWait := none }

/-- A driver configuration with an empty `Networks` list and no optional
resources configured. -/
def cfgEmptyNetworks : DriverCfg :=
  { folder := "", datastore := "", datacenter := "", networks := []
    network := "", hostSystem := "", pool := "" }

/-- A `PreCreateCheck` backend in which every lookup succeeds except the
network lookup. -/
def preEnvNetworkFails : PreCreateEnv :=
  { login := none, findDC := none, folders := none, findFolder := .ok true
    findDS := none, findNetwork := fun _ => some (.backend "network not found")
    findHS := none, findPool := none, hsPool := none, defaultPool := none }


/-! ### Helper lemmas -/

/-- The inner selection loop of `GetIP` computes: first qualifying address,
defaulting to `ips[0]`. -/
theorem pickPreferred_eq_find (first : String) (l : List String) :
    pickPreferred first l = (l.find? isQualifyingIP).getD first := by
  induction l with
  | nil => rfl
  | cons ip rest ih =>
    unfold pickPreferred
    by_cases h : isQualifyingIP ip
    · simp [h, List.find?]
    · simp [h, List.find?, ih]

/-- The `len(ips) >= 0` guard holds for every list. -/
theorem lenGuard_eq_true (l : List String) : lenGuard l = true := by
  simp [lenGuard]

/-- A `GetState` result whose state is `Running` carries no error. -/
theorem getState_running_no_error (o : GSOutcome)
    (h : (getState o).1 = MachineState.running) :
    getState o = (MachineState.running, none) := by
  cases o with
  | loginErr e => simp [getState] at h
  | fetchErr e => simp [getState] at h
  | retrieveErr e => simp [getState] at h
  | ok ps =>
    by_cases h1 : containsSubstr ps "poweredOn"
    · simp [getState, h1]
    · by_cases h2 : containsSubstr ps "poweredOff" <;>
        simp [getState, h1, h2] at h

/-! ### Claim C1 -/

/-- Claim C1: for every host whose state is not `Running`, `GetIP` returns
the `HostNotRunning` error; for every `Running` host whose backend reports a
(nonempty) first candidate address list, `GetIP` returns the first address of
that list that parses as a global-unicast IPv4 address different from the
container-bridge default `172.17.0.1`, and the first address of the list
when no address qualifies. -/
theorem getIP_notRunning_and_selection (env : GetIPEnv) :
    ((getState env.gs).1 ≠ MachineState.running →
        getIP env = Except.error GoErr.hostNotRunning) ∧
    (∀ (mac first : String) (ips : List String)
        (rest : List (String × List String)),
        (getState env.gs).1 = MachineState.running →
        env.login = none →
        env.fetch = none →
        env.waitNetIP = Except.ok ((mac, ips) :: rest) →
        ips.head? = some first →
        getIP env = Except.ok ((ips.find? isQualifyingIP).getD first)) := by
  constructor
  · intro h
    unfold getIP
    rw [if_pos h]
  · intro mac first ips rest hst hlog hfetch hwait hhead
    unfold getIP
    rw [if_neg (by simp [hst])]
    simp only [hlog, hfetch, hwait, scanMacIPs, lenGuard_eq_true, hhead]
    simp [pickPreferred_eq_find]

/-- Witness for C1: a stopped host yields `HostNotRunning`; a running host
reporting `["fe80::1", "10.0.0.7"]` yields the selection result (which
evaluates to `"10.0.0.7"`). -/
theorem getIP_notRunning_and_selection_witness :
    getIP ipEnvStopped = Except.error GoErr.hostNotRunning ∧
    getIP ipEnvRunning =
      Except.ok (((["fe80::1", "10.0.0.7"] : List String).find?
        isQualifyingIP).getD "fe80::1") :=
  ⟨(getIP_notRunning_and_selection ipEnvStopped).1 (by decide),
   (getIP_notRunning_and_selection ipEnvRunning).2 "00:0c:29:aa:bb:cc"
     "fe80::1" ["fe80::1", "10.0.0.7"] [] (by decide) rfl rfl rfl rfl⟩

/-! ### Claim C10 -/

/-- Claim C10: the selection guard `len(ips) >= 0` is true for every list,
so an empty address list is not excluded; when the first reported MAC entry
has an empty address list the `Option`-returning index yields `none` and
`GetIP` reaches the error branch. -/
theorem getIP_guard_vacuous_empty_list_errors :
    (∀ ips : List String, lenGuard ips = true) ∧
    (∀ (env : GetIPEnv) (mac : String) (rest : List (String × List String)),
        (getState env.gs).1 = MachineState.running →
        env.login = none →
        env.fetch = none →
        env.waitNetIP = Except.ok ((mac, ([] : List String)) :: rest) →
        getIP env = Except.error GoErr.noIPFound) := by
  refine ⟨lenGuard_eq_true, ?_⟩
  intro env mac rest hst hlog hfetch hwait
  unfold getIP
  rw [if_neg (by simp [hst])]
  simp only [hlog, hfetch, hwait, scanMacIPs, lenGuard_eq_true]
  simp

/-- Witness for C10: the guard holds on the empty list, and a running host
whose only MAC entry has an empty address list gets the DHCP error. -/
theorem getIP_guard_vacuous_empty_list_errors_witness :
    lenGuard [] = true ∧ getIP ipEnvEmptyList = Except.error GoErr.noIPFound :=
  ⟨getIP_guard_vacuous_empty_list_errors.1 [],
   getIP_guard_vacuous_empty_list_errors.2 ipEnvEmptyList "00:0c:29:aa:bb:cc"
     [] (by decide) rfl rfl rfl⟩

/-! ### Claim C4 -/

/-- Claim C4 (code bug): when the property-retrieval step (`RetrieveOne`)
fails, `GetState` does not surface the error — the source's branch returns
`state.None, nil`, so the backend error is swallowed instead of being
returned as the claim requires. -/
theorem getState_swallows_retrieve_error :
    getState (GSOutcome.retrieveErr (GoErr.backend "RetrieveOne failed")) =
      (MachineState.none_, none) := rfl

/-! ### Claim C9 -/

/-- Claim C9: for every host whose backend-reported state is `Running`,
`Start` returns success, issues no power-on request, and leaves the driver's
`IPAddress` (its only mutable field in `Start`) unchanged. -/
theorem start_running_is_noop (ip0 : String) (env : StartEnv)
    (h : (getState env.gs).1 = MachineState.running) :
    start ip0 env =
      { result := none, powerOnInvoked := false, ipAddress := ip0 } := by
  unfold start
  rw [getState_running_no_error env.gs h]

/-- Witness for C9: a concrete running host. -/
theorem start_running_is_noop_witness :
    start "192.168.1.9" startEnvRunning =
      { result := none, powerOnInvoked := false, ipAddress := "192.168.1.9" } :=
  start_running_is_noop "192.168.1.9" startEnvRunning (by decide)

/-! ### Restart helper lemmas -/

/-- When every poll reports `Running` with no error, the wait loop exhausts
its full budget. -/
theorem waitLoop_const_running (polls : Nat → MachineState × Option GoErr)
    (h : ∀ j, polls j = (MachineState.running, none)) :
    ∀ fuel k, waitLoop polls k fuel = Except.ok (k + fuel) := by
  intro fuel
  induction fuel with
  | zero => intro k; rfl
  | succ n ih =>
    intro k
    unfold waitLoop
    rw [h k]
    simp only [reduceCtorEq, reduceIte, ih (k + 1)]
    congr 1
    omega

/-- A first poll reporting `Stopped` breaks the wait loop immediately. -/
theorem waitLoop_stopped_first (polls : Nat → MachineState × Option GoErr)
    (k fuel : Nat) (h : polls k = (MachineState.stopped, none)) :
    waitLoop polls k (fuel + 1) = Except.ok (k + 1) := by
  unfold waitLoop
  rw [h]
  simp

/-! ### Claim C6 -/

/-- Claim C6: when `Stop` succeeds but every backend poll keeps reporting
`Running` through the whole 60-iteration budget (and `Kill` succeeds),
`Restart` invokes exactly one `Kill` followed by exactly one `Start`. -/
theorem restart_full_budget_kills_then_starts (env : RestartEnv)
    (hstop : env.stop = none)
    (hpolls : ∀ j, env.polls j = (MachineState.running, none))
    (hkill : env.kill = none) :
    restart env =
      { result := env.start, calls := [Call.kill, Call.start], pollsUsed := 61 } := by
  unfold restart
  rw [hstop, waitLoop_const_running env.polls hpolls 60 0]
  simp only [Nat.zero_add, hpolls 60, hkill]
  simp

/-- Witness for C6: the concrete always-running interaction. -/
theorem restart_full_budget_kills_then_starts_witness :
    restart restartEnvAlwaysRunning =
      { result := none, calls := [Call.kill, Call.start], pollsUsed := 61 } :=
  restart_full_budget_kills_then_starts restartEnvAlwaysRunning rfl
    (fun _ => rfl) rfl

/-! ### Claim C8 -/

/-- Claim C8: when `Stop` succeeds and the backend reports `Stopped` from the
first poll of the wait loop on (in particular also at the post-loop check),
`Restart` completes, ending with a single `Start` and never invoking
`Kill`. -/
theorem restart_stopped_first_poll_no_kill (env : RestartEnv)
    (hstop : env.stop = none)
    (h0 : env.polls 0 = (MachineState.stopped, none))
    (h1 : env.polls 1 = (MachineState.stopped, none)) :
    restart env =
      { result := env.start, calls := [Call.start], pollsUsed := 2 } := by
  unfold restart
  rw [hstop, show (60 : Nat) = 59 + 1 from rfl,
    waitLoop_stopped_first env.polls 0 59 h0]
  simp only [Nat.zero_add, h1]
  simp

/-- Witness for C8: the concrete stopped-at-first-poll interaction. -/
theorem restart_stopped_first_poll_no_kill_witness :
    restart restartEnvStopsFirstPoll =
      { result := none, calls := [Call.start], pollsUsed := 2 } :=
  restart_stopped_first_poll_no_kill restartEnvStopsFirstPoll rfl rfl rfl

/-! ### Claim C7 -/

/-- Counterexample to C7 as stated: a backend that reports the `Error`
*state* (with a nil error) at every poll does not make `Restart` abort.
The wait loop treats any state other than `Stopped` like `Running` and keeps
polling through the whole budget, the post-loop check sees a non-`Running`
state, and `Start` is invoked; no error is surfaced. -/
theorem restart_error_state_does_not_abort :
    restart restartEnvErrorState =
      { result := none, calls := [Call.start], pollsUsed := 61 } ∧
    (restart restartEnvErrorState).result ≠
      some (GoErr.backend "connection refused") ∧
    (restart restartEnvErrorState).calls ≠ [] := by
  refine ⟨rfl, ?_, ?_⟩ <;> decide

/-- Lemma for the amended C7: if polls before index `i` neither fail nor
report `Stopped`, and the poll at index `i` fails with `e`, the wait loop
returns `e` after exactly `i + 1` polls. -/
theorem waitLoop_aborts_on_error (polls : Nat → MachineState × Option GoErr)
    (e : GoErr) :
    ∀ (i k fuel : Nat), i < fuel →
    (∀ j, j < i →
      (polls (k + j)).2 = none ∧ (polls (k + j)).1 ≠ MachineState.stopped) →
    (polls (k + i)).2 = some e →
    waitLoop polls k fuel = Except.error (e, k + i + 1) := by
  intro i
  induction i with
  | zero =>
    intro k fuel hfuel hbefore herr
    cases fuel with
    | zero => omega
    | succ f =>
      have h2 : (polls k).2 = some e := by simpa using herr
      unfold waitLoop
      rcases hpk : polls k with ⟨st, oe⟩
      rw [hpk] at h2
      simp at h2
      subst h2
      simp
  | succ i ih =>
    intro k fuel hfuel hbefore herr
    cases fuel with
    | zero => omega
    | succ f =>
      have h0 := hbefore 0 (Nat.succ_pos i)
      simp only [Nat.add_zero] at h0
      unfold waitLoop
      rcases hpk : polls k with ⟨st, oe⟩
      rw [hpk] at h0
      simp only at h0
      obtain ⟨hoe, hst⟩ := h0
      subst hoe
      simp only [if_neg hst]
      have hrec := ih (k + 1) f (by omega)
        (fun j hj => by
          have hb := hbefore (j + 1) (by omega)
          have hidx : k + (j + 1) = k + 1 + j := by omega
          rwa [hidx] at hb)
        (by
          have hidx : k + (i + 1) = k + 1 + i := by omega
          rwa [hidx] at herr)
      rw [hrec]
      congr 2
      omega

/-- Amended claim C7: during `Restart`'s wait loop, if a `GetState` call
fails with a non-nil error at some iteration (all earlier iterations having
returned neither an error nor `Stopped`), `Restart` aborts immediately with
that error, making no further polls and invoking neither `Kill` nor `Start`.
A reported `Error` *state* with a nil error, by contrast, does not abort the
loop (see the counterexample). -/
theorem restart_aborts_on_poll_error (env : RestartEnv) (i : Nat) (e : GoErr)
    (hi : i < 60)
    (hstop : env.stop = none)
    (hbefore : ∀ j, j < i →
      (env.polls j).2 = none ∧ (env.polls j).1 ≠ MachineState.stopped)
    (herr : (env.polls i).2 = some e) :
    restart env = { result := some e, calls := [], pollsUsed := i + 1 } := by
  unfold restart
  rw [hstop, waitLoop_aborts_on_error env.polls e i 0 60 hi
    (fun j hj => by simpa using hbefore j hj) (by simpa using herr)]
  simp

/-- Witness for the amended C7: the first poll fails with a backend error;
`Restart` surfaces it after one poll with no `Kill` or `Start`. -/
theorem restart_aborts_on_poll_error_witness :
    restart restartEnvPollFails =
      { result := some (GoErr.backend "connection refused"), calls := []
        pollsUsed := 1 } :=
  restart_aborts_on_poll_error restartEnvPollFails 0
    (GoErr.backend "connection refused") (by omega) rfl
    (fun j hj => absurd hj (Nat.not_lt_zero j)) rfl

/-! ### Claim C2 -/

/-- Claim C2 (code bug): when the boot-ISO delete task reports a
file-not-found fault, `Remove` returns success immediately — but it skips
`vm.Destroy`, so the VM object is *not* deleted, contrary to the claim's
"while still deleting the remaining resources".  On the normal path
(second conjunct) a running machine is force-stopped and the VM destroyed. -/
theorem remove_missing_iso_succeeds_but_skips_destroy :
    remove removeEnvISOGone =
      { result := none, killInvoked := false, destroyInvoked := false } ∧
    remove removeEnvRunningOk =
      { result := none, killInvoked := true, destroyInvoked := true } := by
  constructor <;> rfl

/-! ### Claim C5 -/

/-- Counterexample to C5 as stated: with an empty `Networks` list and a
backend where the (defaulted) network lookup fails, `PreCreateCheck` returns
an error yet has already mutated the stored configuration — `Networks` is now
`["VM Network"]`. -/
theorem preCreateCheck_failure_mutates_networks :
    (preCreateCheck cfgEmptyNetworks preEnvNetworkFails).2 =
      some (GoErr.backend "network not found") ∧
    (preCreateCheck cfgEmptyNetworks preEnvNetworkFails).1 ≠ cfgEmptyNetworks ∧
    (preCreateCheck cfgEmptyNetworks preEnvNetworkFails).1.networks =
      ["VM Network"] := by
  refine ⟨rfl, ?_, rfl⟩
  decide

/-- Resource-pool validation never changes the configuration. -/
theorem poolPhase_preserves_cfg (cfg : DriverCfg) (env : PreCreateEnv) :
    (poolPhase cfg env).1 = cfg := by
  unfold poolPhase
  repeat' split
  all_goals rfl

/-- Host-system and pool validation never change the configuration. -/
theorem hostPoolPhase_preserves_cfg (cfg : DriverCfg) (env : PreCreateEnv) :
    (hostPoolPhase cfg env).1 = cfg := by
  unfold hostPoolPhase
  repeat' split
  all_goals simp [poolPhase_preserves_cfg]

/-- The configuration after `PreCreateCheck` is one of: unchanged, networks
defaulted, or networks defaulted and `Network` set to the first network. -/
theorem preCreateCheck_cfg_cases (cfg : DriverCfg) (env : PreCreateEnv) :
    (preCreateCheck cfg env).1 = cfg ∨
    (preCreateCheck cfg env).1 = { cfg with networks := defaultedNetworks cfg } ∨
    (preCreateCheck cfg env).1 =
      { cfg with
          networks := defaultedNetworks cfg
          network := (defaultedNetworks cfg).headD "" } := by
  unfold preCreateCheck networkPhase
  repeat' split
  all_goals simp [hostPoolPhase_preserves_cfg]

/-- Amended claim C5: `PreCreateCheck` performs only backend reads, and on
any outcome (including every validation failure) it leaves `Folder`,
`Datastore`, `Datacenter`, `HostSystem` and `Pool` unchanged; but it may
mutate the stored configuration before a later check fails: an empty
`Networks` list is defaulted to `["VM Network"]` before network validation,
and `Network` is set to the first network once network validation has
passed. -/
theorem preCreateCheck_frame_effect (cfg : DriverCfg) (env : PreCreateEnv) :
    (preCreateCheck cfg env).1.folder = cfg.folder ∧
    (preCreateCheck cfg env).1.datastore = cfg.datastore ∧
    (preCreateCheck cfg env).1.datacenter = cfg.datacenter ∧
    (preCreateCheck cfg env).1.hostSystem = cfg.hostSystem ∧
    (preCreateCheck cfg env).1.pool = cfg.pool ∧
    ((preCreateCheck cfg env).1.networks = cfg.networks ∨
      (cfg.networks = [] ∧ (preCreateCheck cfg env).1.networks = ["VM Network"])) ∧
    ((preCreateCheck cfg env).1.network = cfg.network ∨
      (preCreateCheck cfg env).1.network =
        ((preCreateCheck cfg env).1.networks).headD "") := by
  have hnets : defaultedNetworks cfg = cfg.networks ∨
      (cfg.networks = [] ∧ defaultedNetworks cfg = ["VM Network"]) := by
    unfold defaultedNetworks
    by_cases he : cfg.networks.isEmpty
    · right
      rw [List.isEmpty_iff] at he
      simp [he]
    · left
      simp [he]
  rcases preCreateCheck_cfg_cases cfg env with h | h | h <;> rw [h]
  · exact ⟨rfl, rfl, rfl, rfl, rfl, Or.inl rfl, Or.inl rfl⟩
  · exact ⟨rfl, rfl, rfl, rfl, rfl, by simpa using hnets, Or.inl rfl⟩
  · exact ⟨rfl, rfl, rfl, rfl, rfl, by simpa using hnets, Or.inr rfl⟩

/-! ### Claim C3 -/

/-- Counterexample to C3 as stated: the Container Optimized OS provisioner is
systemd-based (it embeds `SystemdProvisioner`), yet its
`GenerateDockerOptions` does not emit the systemd two-artifact shape — it
deliberately delegates to the generic generator and emits the single flat
environment-style file. -/
theorem cos_systemd_but_flat_file :
    cosProvisioner.systemdBased = true ∧
    cosProvisioner.generateDockerOptions ≠ systemdGenerateDockerOptions ∧
    cosProvisioner.generateDockerOptions = [ConfigArtifact.flatEnvFile] := by
  refine ⟨rfl, ?_, rfl⟩
  decide

/-- Amended claim C3: a systemd-capable provisioner emits the override
fragment + flag file pair and a non-systemd provisioner exactly one flat
environment-style file — except the Container Optimized OS provisioner,
which although systemd-based overrides its generation to emit the single
flat file. -/
theorem daemon_config_shapes :
    systemdProvisioner.generateDockerOptions =
      [ConfigArtifact.overrideFragment, ConfigArtifact.flagFile] ∧
    nonSystemdProvisioner.generateDockerOptions = [ConfigArtifact.flatEnvFile] ∧
    cosProvisioner.systemdBased = true ∧
    cosProvisioner.generateDockerOptions = genericGenerateDockerOptions := by
  exact ⟨rfl, rfl, rfl, rfl⟩
